import Mathlib

/-!
Verification of the Spectre AI orchestration core.

This file gives a shallow embedding of the project/plan/step data model and
of the operations of `src/core/orchestrator.ts`, `src/agents/index.ts`
(planner, validator), and `src/agents/executor.ts`, and proves or refutes
the frozen claims about them.

Modelling conventions:
* JavaScript `Map<string, T>` values are modelled as lists in insertion
  order (`Map.set` with a fresh key appends; `Map.values()` iterates in
  insertion order; lookup is by the stored key).
* `Date.now()` is modelled by an explicit `now : Nat` parameter.
* Requirement-map values (`any` in TypeScript) are modelled by the `Value`
  type covering the shapes the code inspects: booleans, numbers, strings.
* Durations are JavaScript numbers holding whole minutes; they are
  modelled by `Int`.  `Math.round (d * 1.5)` and `Math.round (d * 0.8)`
  are embedded as the integer expressions `(3*d + 1) / 2` and
  `(8*d + 5) / 10` (Euclidean division); the lemmas
  `round_three_half_eq` and `round_four_fifth_eq` prove these equal to
  `round` of the exact rational products, which is what the spec states.
* Thrown exceptions are modelled by an `Option String` error component;
  in every modelled operation the code throws before mutating, so an
  error result carries the unchanged state.
-/

namespace Spectre

/-- A runtime JavaScript value as far as the planner inspects it. -/
inductive Value where
  | vBool : Bool → Value
  | vNum : Int → Value
  | vStr : String → Value
deriving DecidableEq

/-- JavaScript truthiness of a `Value` (used to state claims that speak
about "truthy" requirement values). -/
def jsTruthy : Value → Bool
  | .vBool b => b
  | .vNum n => n != 0
  | .vStr s => s != ""

/-- A requirement map (`Map<string, any>`), in insertion order. -/
abbrev Requirements := List (String × Value)

/-- `ProjectStatus` from `src/utils/types.ts`. -/
inductive ProjectStatus where
  | planning | active | executing | completed | stopped | failed
deriving DecidableEq

/-- `PlanStatus` from `src/utils/types.ts`. -/
inductive PlanStatus where
  | draft | approved | executing | completed | failed
deriving DecidableEq

/-- `StepStatus` from `src/utils/types.ts`. -/
inductive StepStatus where
  | pending | in_progress | completed | failed | skipped
deriving DecidableEq

/-- `ExecutionStep` from `src/utils/types.ts` (the fields the claims are
about; `type` is kept as its runtime string representation). -/
structure ExecutionStep where
  id : String
  name : String
  description : String
  type : String
  dependencies : List String
  estimatedDuration : Int
  required : Bool
  order : Nat
  status : Option StepStatus
  error : Option String
deriving DecidableEq

/-- `ExecutionPlan` from `src/utils/types.ts`. -/
structure ExecutionPlan where
  id : String
  projectId : String
  projectType : String
  steps : List ExecutionStep
  status : PlanStatus
  createdAt : Nat
  updatedAt : Nat
  estimatedDuration : Int
  requirements : Requirements
deriving DecidableEq

/-- `Project` from `src/utils/types.ts`. -/
structure Project where
  id : String
  name : String
  type : String
  description : String
  status : ProjectStatus
  createdAt : Nat
  updatedAt : Nat
deriving DecidableEq

/-- `Agent` interface data (name, description, version). -/
structure Agent where
  name : String
  description : String
  version : String
deriving DecidableEq

/-- The `website` planning template from `PlannerAgent` in
`src/agents/index.ts`. -/
def websiteTemplate : List ExecutionStep := [
  ⟨"setup_repo", "Setup GitHub Repository",
    "Create and configure GitHub repository for the project",
    "setup", [], 30, true, 1, none, none⟩,
  ⟨"setup_project", "Initialize Project Structure",
    "Create basic project structure and configuration files",
    "setup", ["setup_repo"], 45, true, 2, none, none⟩,
  ⟨"design_architecture", "Design System Architecture",
    "Plan the overall system architecture and component structure",
    "planning", ["setup_project"], 60, true, 3, none, none⟩,
  ⟨"setup_database", "Setup Database",
    "Configure database schema and connections",
    "infrastructure", ["design_architecture"], 90, true, 4, none, none⟩,
  ⟨"create_backend", "Create Backend API",
    "Develop backend API endpoints and business logic",
    "development", ["setup_database"], 180, true, 5, none, none⟩,
  ⟨"create_frontend", "Create Frontend Interface",
    "Develop user interface and frontend components",
    "development", ["create_backend"], 240, true, 6, none, none⟩,
  ⟨"setup_cms", "Setup Content Management",
    "Configure CMS integration and content management",
    "integration", ["create_backend"], 120, false, 7, none, none⟩,
  ⟨"setup_deployment", "Setup Deployment Pipeline",
    "Configure CI/CD and deployment infrastructure",
    "deployment", ["create_frontend"], 90, true, 8, none, none⟩,
  ⟨"testing", "Testing and Quality Assurance",
    "Perform comprehensive testing and quality checks",
    "testing", ["setup_deployment"], 120, true, 9, none, none⟩,
  ⟨"deployment", "Deploy to Production",
    "Deploy the application to production environment",
    "deployment", ["testing"], 60, true, 10, none, none⟩]

/-- The `automation` planning template from `PlannerAgent` in
`src/agents/index.ts`.  Note that `setup_monitoring` carries
`required := true` in the source. -/
def automationTemplate : List ExecutionStep := [
  ⟨"analyze_requirements", "Analyze Automation Requirements",
    "Understand the process to be automated and its requirements",
    "analysis", [], 60, true, 1, none, none⟩,
  ⟨"design_workflow", "Design Workflow",
    "Design the automation workflow and decision logic",
    "planning", ["analyze_requirements"], 90, true, 2, none, none⟩,
  ⟨"setup_integrations", "Setup Integrations",
    "Configure integrations with external systems and APIs",
    "integration", ["design_workflow"], 120, true, 3, none, none⟩,
  ⟨"create_workflow", "Create Automation Workflow",
    "Build the automation workflow using n8n or similar tool",
    "development", ["setup_integrations"], 180, true, 4, none, none⟩,
  ⟨"setup_monitoring", "Setup Monitoring and Alerts",
    "Configure monitoring, logging, and alerting systems",
    "infrastructure", ["create_workflow"], 90, true, 5, none, none⟩,
  ⟨"testing_automation", "Test Automation",
    "Test the automation workflow with various scenarios",
    "testing", ["setup_monitoring"], 120, true, 6, none, none⟩,
  ⟨"deploy_automation", "Deploy Automation",
    "Deploy the automation to production environment",
    "deployment", ["testing_automation"], 60, true, 7, none, none⟩]

/-- The planner's template map (`templates.get(projectType)`). -/
def templates (projectType : String) : Option (List ExecutionStep) :=
  if projectType = "website" then some websiteTemplate
  else if projectType = "automation" then some automationTemplate
  else none

/-- `PlannerAgent.shouldIncludeStep` from `src/agents/index.ts`:
required steps are always included; `setup_cms` / `setup_monitoring` are
gated on the `cms` / `monitoring` requirement being exactly `true`; any
other optional step is included by default. -/
def shouldIncludeStep (step : ExecutionStep) (requirements : Requirements) : Bool :=
  if step.required then true
  else if step.id = "setup_cms" then
    (requirements.lookup "cms").isSome &&
      decide (requirements.lookup "cms" = some (Value.vBool true))
  else if step.id = "setup_monitoring" then
    (requirements.lookup "monitoring").isSome &&
      decide (requirements.lookup "monitoring" = some (Value.vBool true))
  else true

/-- `PlannerAgent.adjustDuration` from `src/agents/index.ts`:
`duration *= 1.5` for high complexity, `duration *= 0.8` for low, then
`Math.round`.  The rounded products are embedded as integer expressions;
see `round_three_half_eq` / `round_four_fifth_eq` for the equivalence
with rounding the exact rational products. -/
def adjustDuration (step : ExecutionStep) (requirements : Requirements) : Int :=
  match requirements.lookup "complexity" with
  | some complexity =>
    if complexity = Value.vStr "high" then (3 * step.estimatedDuration + 1) / 2
    else if complexity = Value.vStr "low" then (8 * step.estimatedDuration + 5) / 10
    else step.estimatedDuration
  | none => step.estimatedDuration

/-- The step object pushed by `PlannerAgent.customizeSteps`: the template
step with a timestamp-suffixed id and an adjusted duration. -/
def generateStep (step : ExecutionStep) (requirements : Requirements) (now : Nat) :
    ExecutionStep :=
  { step with
    id := step.id ++ "_" ++ toString now,
    estimatedDuration := adjustDuration step requirements }

/-- `PlannerAgent.customizeSteps` from `src/agents/index.ts`. -/
def customizeSteps (template : List ExecutionStep) (requirements : Requirements)
    (now : Nat) : List ExecutionStep :=
  template.filterMap (fun step =>
    if shouldIncludeStep step requirements then
      some (generateStep step requirements now)
    else none)

/-- `PlannerAgent.calculateTotalDuration` from `src/agents/index.ts`. -/
def calculateTotalDuration (steps : List ExecutionStep) : Int :=
  steps.foldl (fun total step => total + step.estimatedDuration) 0

/-- Result of a planner operation: the outcome and the resulting plan
store.  On a thrown error the store is the unchanged input store. -/
structure PlannerResult where
  result : Except String ExecutionPlan
  plans : List ExecutionPlan

/-- `PlannerAgent.createPlan` from `src/agents/index.ts`. -/
def createPlan (plans : List ExecutionPlan) (projectId : String)
    (projectType : String) (requirements : Requirements) (now : Nat) :
    PlannerResult :=
  match templates projectType with
  | none => ⟨.error ("No template found for project type: " ++ projectType), plans⟩
  | some template =>
    let steps := customizeSteps template requirements now
    let plan : ExecutionPlan :=
      ⟨"plan_" ++ projectId ++ "_" ++ toString now, projectId, projectType,
        steps, .draft, now, now, calculateTotalDuration steps, requirements⟩
    ⟨.ok plan, plans ++ [plan]⟩

/-- The `Partial<ExecutionPlan>` updates actually passed to
`PlannerAgent.updatePlan` in the source (`steps` and `status`). -/
structure PlanUpdates where
  steps : Option (List ExecutionStep)
  status : Option PlanStatus

/-- Spreading `{...plan, ...updates}`. -/
def applyUpdates (plan : ExecutionPlan) (updates : PlanUpdates) : ExecutionPlan :=
  { plan with
    steps := updates.steps.getD plan.steps,
    status := updates.status.getD plan.status }

/-- `PlannerAgent.updatePlan` from `src/agents/index.ts`. -/
def updatePlan (plans : List ExecutionPlan) (planId : String)
    (updates : PlanUpdates) (now : Nat) : PlannerResult :=
  match plans.find? (fun p => p.id == planId) with
  | none => ⟨.error ("Plan " ++ planId ++ " not found"), plans⟩
  | some plan =>
    let updatedPlan := { applyUpdates plan updates with updatedAt := now }
    ⟨.ok updatedPlan,
      plans.map (fun p => if p.id == planId then updatedPlan else p)⟩

/-- `PlannerAgent.addStep` from `src/agents/index.ts`. -/
def addStep (plans : List ExecutionPlan) (planId : String)
    (step : ExecutionStep) (now : Nat) : PlannerResult :=
  match plans.find? (fun p => p.id == planId) with
  | none => ⟨.error ("Plan " ++ planId ++ " not found"), plans⟩
  | some plan => updatePlan plans planId ⟨some (plan.steps ++ [step]), none⟩ now

/-- `ExecutorAgent.executeStepByType` from `src/agents/executor.ts`:
dispatch on the step type string; each known type simulates work and
succeeds; an unknown type throws. -/
def executeStepByType (step : ExecutionStep) : Except String Unit :=
  match step.type with
  | "setup" => .ok ()
  | "planning" => .ok ()
  | "development" => .ok ()
  | "testing" => .ok ()
  | "deployment" => .ok ()
  | "integration" => .ok ()
  | "infrastructure" => .ok ()
  | "analysis" => .ok ()
  | other => .error ("Unknown step type: " ++ other)

/-- `ExecutorAgent.executeStep` from `src/agents/executor.ts`: returns
`true` on success and `false` when the work unit throws. -/
def executeStep (step : ExecutionStep) (_projectId : String) : Bool :=
  match executeStepByType step with
  | .ok _ => true
  | .error _ => false

/-- The orchestrator's in-memory state (`agents`, `projects`, `plans`
maps and the shutdown flag), in insertion order. -/
structure OrchState where
  agents : List Agent
  projects : List Project
  plans : List ExecutionPlan
  isShutdown : Bool
deriving DecidableEq

/-- Result of an orchestrator operation: the resulting state and the
thrown error, if any.  Every modelled operation throws before mutating,
so an error result carries the unchanged state. -/
structure OrchResult where
  state : OrchState
  error : Option String
deriving DecidableEq

/-- `this.projects.get(projectId)`. -/
def findProject (st : OrchState) (projectId : String) : Option Project :=
  st.projects.find? (fun p => p.id == projectId)

/-- `this.agents.get(name)`. -/
def lookupAgent (st : OrchState) (name : String) : Option Agent :=
  st.agents.find? (fun a => a.name == name)

/-- `Array.from(this.plans.values()).find(p => p.projectId === projectId)`
(line 158 of `src/core/orchestrator.ts`). -/
def resolvePlan (st : OrchState) (projectId : String) : Option ExecutionPlan :=
  st.plans.find? (fun p => p.projectId == projectId)

/-- `project.status = status; project.updatedAt = new Date()` applied to
the project stored under `projectId`. -/
def setProjectStatus (st : OrchState) (projectId : String)
    (status : ProjectStatus) (now : Nat) : OrchState :=
  { st with
    projects := st.projects.map (fun p =>
      if p.id == projectId then { p with status := status, updatedAt := now }
      else p) }

/-- `Orchestrator.startProject` from `src/core/orchestrator.ts`:
unconditionally sets the status of an existing project to `active`. -/
def startProject (st : OrchState) (projectId : String) (now : Nat) : OrchResult :=
  match findProject st projectId with
  | none => ⟨st, some ("Project " ++ projectId ++ " not found")⟩
  | some _ => ⟨setProjectStatus st projectId .active now, none⟩

/-- `Orchestrator.stopProject` from `src/core/orchestrator.ts`:
unconditionally sets the status of an existing project to `stopped`. -/
def stopProject (st : OrchState) (projectId : String) (now : Nat) : OrchResult :=
  match findProject st projectId with
  | none => ⟨st, some ("Project " ++ projectId ++ " not found")⟩
  | some _ => ⟨setProjectStatus st projectId .stopped now, none⟩

/-- The basic plan object created inline by
`Orchestrator.generateExecutionPlan`. -/
def basicPlan (projectId : String) (projectType : String) (now : Nat) :
    ExecutionPlan :=
  ⟨"plan_" ++ projectId ++ "_" ++ toString now, projectId, projectType,
    [], .draft, now, now, 0, []⟩

/-- `Orchestrator.generateExecutionPlan` from `src/core/orchestrator.ts`:
requires the project and the `planner` agent, then stores a basic plan. -/
def generateExecutionPlan (st : OrchState) (projectId : String) (now : Nat) :
    OrchResult :=
  match findProject st projectId with
  | none => ⟨st, some ("Project " ++ projectId ++ " not found")⟩
  | some project =>
    match lookupAgent st "planner" with
    | none => ⟨st, some "Planner agent not found"⟩
    | some _ =>
      ⟨{ st with plans := st.plans ++ [basicPlan projectId project.type now] },
        none⟩

/-- `Orchestrator.executeProjectPlan` from `src/core/orchestrator.ts`:
resolves the project and a plan, sets the project to `executing`,
simulates execution with a fixed delay, and then unconditionally sets the
project to `completed`.  It never invokes the executor, never touches the
plan's steps, and never writes the plan status. -/
def executeProjectPlan (st : OrchState) (projectId : String) (now : Nat) :
    OrchResult :=
  match findProject st projectId with
  | none => ⟨st, some ("Project " ++ projectId ++ " not found")⟩
  | some _ =>
    match resolvePlan st projectId with
    | none => ⟨st, some ("No plan found for project " ++ projectId)⟩
    | some _ =>
      let st1 := setProjectStatus st projectId .executing now
      let st2 := setProjectStatus st1 projectId .completed now
      ⟨st2, none⟩

/-- The gating requirement key of an optional template step, as the spec
documents it: `setup_cms` is gated by `cms`, `setup_monitoring` by
`monitoring`. -/
def gateKey (id : String) : Option String :=
  if id = "setup_cms" then some "cms"
  else if id = "setup_monitoring" then some "monitoring"
  else none

/-- The amended claim's kept-step predicate: a template step is kept iff
it is required, or its gating requirement key maps to the exact boolean
`true`. -/
def specKeepsStep (step : ExecutionStep) (reqs : Requirements) : Bool :=
  step.required ||
    (match gateKey step.id with
     | some k => decide (reqs.lookup k = some (Value.vBool true))
     | none => false)

/-- The complexity multiplier as the spec states it: ×1.5 when the
requirement map maps `complexity` to `high`, ×0.8 when to `low`,
×1.0 otherwise. -/
def complexityMultiplier (reqs : Requirements) : ℚ :=
  if reqs.lookup "complexity" = some (Value.vStr "high") then 3 / 2
  else if reqs.lookup "complexity" = some (Value.vStr "low") then 4 / 5
  else 1

/-- A default step, used only as the fallback of `List.getD`. -/
def defaultStep : ExecutionStep := ⟨"", "", "", "", [], 0, false, 0, none, none⟩

/-- A required step carrying a step type unknown to the executor, so
`executeStep` reports failure on it. -/
def c1Step : ExecutionStep :=
  ⟨"do_magic", "Do Magic", "A step whose executor run fails", "magic",
    [], 30, true, 1, none, none⟩

/-- A stored plan whose only step is the failing required step. -/
def c1Plan : ExecutionPlan :=
  ⟨"plan_p1_1", "p1", "website", [c1Step], .draft, 1, 1, 30, []⟩

/-- The project owning `c1Plan`. -/
def c1Project : Project := ⟨"p1", "demo", "website", "", .active, 0, 0⟩

/-- Orchestrator state holding `c1Project` and `c1Plan`. -/
def c1State : OrchState := ⟨[], [c1Project], [c1Plan], false⟩

/-- An older stored plan for project `p3` (created at time 100). -/
def c3PlanOld : ExecutionPlan :=
  ⟨"plan_p3_100", "p3", "website", [], .draft, 100, 100, 0, []⟩

/-- A newer stored plan for project `p3` (created at time 200). -/
def c3PlanNew : ExecutionPlan :=
  ⟨"plan_p3_200", "p3", "website", [], .draft, 200, 200, 0, []⟩

/-- The project owning the two plans. -/
def c3Project : Project := ⟨"p3", "demo", "website", "", .active, 0, 0⟩

/-- State with two plans for the same project, stored in creation
order. -/
def c3State : OrchState := ⟨[], [c3Project], [c3PlanOld, c3PlanNew], false⟩

/-- A project/no-plan state used to witness the plan-not-found branch. -/
def c3EmptyState : OrchState := ⟨[], [c3Project], [], false⟩

/-- A project in an agentless orchestrator. -/
def c8Project : Project := ⟨"p8", "demo", "website", "", .planning, 0, 0⟩

/-- Orchestrator state with no registered agents. -/
def c8State : OrchState := ⟨[], [c8Project], [], false⟩

/-- A freshly created project still in `planning`. -/
def c9Project : Project := ⟨"p9", "demo", "website", "", .planning, 0, 0⟩

/-- State holding only the `planning` project. -/
def c9State : OrchState := ⟨[], [c9Project], [], false⟩

/-- A step of duration 60 minutes. -/
def c10Step : ExecutionStep :=
  ⟨"only_step", "Only Step", "", "setup", [], 60, true, 1, none, none⟩

/-- A stored plan whose `estimatedDuration` equals the sum of its steps'
durations. -/
def c10Plan : ExecutionPlan :=
  ⟨"plan_p10_1", "p10", "website", [c10Step], .draft, 1, 1, 60, []⟩

/-- A custom step with duration 0. -/
def c10ZeroStep : ExecutionStep :=
  ⟨"zero_step", "Zero Step", "", "setup", [], 0, false, 2, none, none⟩

theorem foldl_add_duration (l : List ExecutionStep) (a : Int) :
    l.foldl (fun total step => total + step.estimatedDuration) a =
      a + (l.map ExecutionStep.estimatedDuration).sum := by
  induction l generalizing a with
  | nil => simp
  | cons x xs ih => simp [ih, add_assoc]

theorem calculateTotalDuration_eq_sum (steps : List ExecutionStep) :
    calculateTotalDuration steps = (steps.map ExecutionStep.estimatedDuration).sum := by
  rw [calculateTotalDuration, foldl_add_duration, zero_add]

theorem customizeSteps_eq_filter_map (template : List ExecutionStep)
    (reqs : Requirements) (now : Nat) :
    customizeSteps template reqs now =
      (template.filter (fun s => shouldIncludeStep s reqs)).map
        (fun s => generateStep s reqs now) := by
  induction template with
  | nil => rfl
  | cons a l ih =>
    cases h : shouldIncludeStep a reqs <;>
      simp [customizeSteps, List.filterMap_cons, List.filter_cons, h] <;>
      simpa [customizeSteps] using ih

theorem round_three_half_eq (d : Int) :
    (3 * d + 1) / 2 = round ((d : ℚ) * (3 / 2)) := by
  rw [round_eq]
  have h : (d : ℚ) * (3 / 2) + 1 / 2 = ((3 * d + 1 : ℤ) : ℚ) / ((2 : ℕ) : ℚ) := by
    push_cast
    ring
  rw [h, Rat.floor_intCast_div_natCast]
  norm_num

theorem round_four_fifth_eq (d : Int) :
    (8 * d + 5) / 10 = round ((d : ℚ) * (4 / 5)) := by
  rw [round_eq]
  have h : (d : ℚ) * (4 / 5) + 1 / 2 = ((8 * d + 5 : ℤ) : ℚ) / ((10 : ℕ) : ℚ) := by
    push_cast
    ring
  rw [h, Rat.floor_intCast_div_natCast]
  norm_num

theorem adjustDuration_eq_round (s : ExecutionStep) (reqs : Requirements) :
    adjustDuration s reqs =
      round ((s.estimatedDuration : ℚ) * complexityMultiplier reqs) := by
  unfold adjustDuration complexityMultiplier
  cases hc : reqs.lookup "complexity" with
  | none => simp [hc, round_intCast]
  | some c =>
    by_cases h1 : c = Value.vStr "high"
    · simp [hc, h1, round_three_half_eq]
    · by_cases h2 : c = Value.vStr "low"
      · simp [hc, h1, h2, round_four_fifth_eq]
      · simp [hc, h1, h2, round_intCast]

theorem find?_eq_filter_head {α : Type} (p : α → Bool) (l : List α) :
    l.find? p = (l.filter p).head? := by
  induction l with
  | nil => rfl
  | cons a l ih =>
    cases h : p a with
    | true =>
      rw [List.find?_cons_of_pos _ h, List.filter_cons, if_pos h, List.head?_cons]
    | false =>
      rw [List.find?_cons_of_neg _ (by simp [h]), List.filter_cons,
        if_neg (by simp [h]), ih]

theorem take_append_cons {α : Type} (l1 : List α) (c : α) (l2 : List α) :
    (l1 ++ c :: l2).take (l1.length + 1) = l1 ++ [c] := by
  induction l1 with
  | nil => simp
  | cons a tl ih => simpa [List.take_succ_cons] using ih

theorem ne_append_underscore (d t suffix : String)
    (h : d.data.take (t.data.length + 1) ≠ t.data ++ ['_']) :
    d ≠ t ++ "_" ++ suffix := by
  intro he
  apply h
  rw [he]
  have hdata : (t ++ "_" ++ suffix).data = t.data ++ '_' :: suffix.data := by
    simp [String.data_append]
  rw [hdata]
  exact take_append_cons t.data '_' suffix.data

theorem templates_eq_cases (ptype : String) (tmpl : List ExecutionStep)
    (h : templates ptype = some tmpl) :
    tmpl = websiteTemplate ∨ tmpl = automationTemplate := by
  unfold templates at h
  by_cases h1 : ptype = "website"
  · simp only [h1, if_true] at h
    exact Or.inl (Option.some.inj h).symm
  · by_cases h2 : ptype = "automation"
    · simp only [h1, h2, if_false, if_true] at h
      exact Or.inr (Option.some.inj h).symm
    · simp [h1, h2] at h

theorem shouldInclude_eq_spec (s : ExecutionStep) (reqs : Requirements)
    (h : s.required = true ∨ s.id = "setup_cms" ∨ s.id = "setup_monitoring") :
    shouldIncludeStep s reqs = specKeepsStep s reqs := by
  by_cases hr : s.required
  · simp [shouldIncludeStep, specKeepsStep, hr]
  · rcases h with h | h | h
    · exact absurd h hr
    · simp only [shouldIncludeStep, specKeepsStep, gateKey, hr, h, if_true,
        if_false, Bool.false_or]
      cases hc : reqs.lookup "cms" with
      | none => simp [hc]
      | some v => simp [hc]
    · have hcms : s.id ≠ "setup_cms" := by
        rw [h]; decide
      simp only [shouldIncludeStep, specKeepsStep, gateKey, hr, h, hcms,
        if_true, if_false, Bool.false_or]
      cases hc : reqs.lookup "monitoring" with
      | none => simp [hc]
      | some v => simp [hc]

theorem find?_update (l : List Project) (pid : String) (proj : Project)
    (g : Project → Project) (hg : ∀ p, (g p).id = p.id)
    (h : l.find? (fun p => p.id == pid) = some proj) :
    (l.map (fun p => if p.id == pid then g p else p)).find?
      (fun p => p.id == pid) = some (g proj) := by
  induction l with
  | nil => simp at h
  | cons a l ih =>
    by_cases ha : a.id = pid
    · have hb : (a.id == pid) = true := by simp [ha]
      rw [@List.find?_cons_of_pos _ (fun p => p.id == pid) a l hb] at h
      have hpa : a = proj := Option.some.inj h
      rw [← hpa]
      have hgb : ((g a).id == pid) = true := by simp [hg, ha]
      simp only [List.map_cons, hb, if_true]
      exact @List.find?_cons_of_pos _ (fun p => p.id == pid) (g a) _ hgb
    · have hb : ¬((a.id == pid) = true) := by simp [ha]
      rw [@List.find?_cons_of_neg _ (fun p => p.id == pid) a l hb] at h
      simp only [List.map_cons, if_neg hb]
      rw [@List.find?_cons_of_neg _ (fun p => p.id == pid) a _ hb]
      exact ih h

theorem website_dep_prefix :
    ∀ t ∈ websiteTemplate, ∀ t2 ∈ websiteTemplate, ∀ d ∈ t.dependencies,
      d.data.take (t2.id.data.length + 1) ≠ t2.id.data ++ ['_'] := by decide

theorem automation_dep_prefix :
    ∀ t ∈ automationTemplate, ∀ t2 ∈ automationTemplate, ∀ d ∈ t.dependencies,
      d.data.take (t2.id.data.length + 1) ≠ t2.id.data ++ ['_'] := by decide

/-- Claim C5: in every plan generated by `createPlan`, each kept step's id
is its template id with the generation-timestamp suffix appended while its
dependencies still hold the unsuffixed template ids, so no identity in any
step's dependencies equals the id of any step of the same plan. -/
theorem c5_generated_ids_dangle (ptype : String) (tmpl : List ExecutionStep)
    (reqs : Requirements) (now : Nat) (s : ExecutionStep) (d : String)
    (s2 : ExecutionStep) (htmpl : templates ptype = some tmpl)
    (hs : s ∈ customizeSteps tmpl reqs now) (hd : d ∈ s.dependencies)
    (hs2 : s2 ∈ customizeSteps tmpl reqs now) :
    (∃ t ∈ tmpl, s.id = t.id ++ "_" ++ toString now ∧
      s.dependencies = t.dependencies) ∧ d ≠ s2.id := by
  have htw := templates_eq_cases ptype tmpl htmpl
  rw [customizeSteps_eq_filter_map] at hs hs2
  obtain ⟨t, ht, hts⟩ := List.mem_map.mp hs
  obtain ⟨t2, ht2, ht2s⟩ := List.mem_map.mp hs2
  have ht' : t ∈ tmpl := List.mem_of_mem_filter ht
  have ht2' : t2 ∈ tmpl := List.mem_of_mem_filter ht2
  subst hts
  subst ht2s
  refine ⟨⟨t, ht', rfl, rfl⟩, ?_⟩
  have hd' : d ∈ t.dependencies := hd
  have key : d.data.take (t2.id.data.length + 1) ≠ t2.id.data ++ ['_'] := by
    rcases htw with h | h
    · exact website_dep_prefix t (h ▸ ht') t2 (h ▸ ht2') d hd'
    · exact automation_dep_prefix t (h ▸ ht') t2 (h ▸ ht2') d hd'
  exact ne_append_underscore d t2.id (toString now) key

theorem c5_generated_ids_dangle_witness :
    (∃ t ∈ websiteTemplate,
      ((customizeSteps websiteTemplate [] 0).getD 1 defaultStep).id =
        t.id ++ "_" ++ toString 0 ∧
      ((customizeSteps websiteTemplate [] 0).getD 1 defaultStep).dependencies =
        t.dependencies) ∧
    "setup_repo" ≠ ((customizeSteps websiteTemplate [] 0).getD 0 defaultStep).id :=
  c5_generated_ids_dangle "website" websiteTemplate [] 0
    ((customizeSteps websiteTemplate [] 0).getD 1 defaultStep) "setup_repo"
    ((customizeSteps websiteTemplate [] 0).getD 0 defaultStep)
    rfl (by decide) (by decide) (by decide)

/-- Claim C4 counterexample: with requirement map `{cms: 1}` the key `cms`
is present with a truthy value, yet the generated website plan omits the
optional `Setup Content Management` step, because the code keeps a gated
optional step only when the value is exactly the boolean `true`. -/
theorem c4_truthy_counterexample :
    jsTruthy (Value.vNum 1) = true ∧
    (([("cms", Value.vNum 1)] : Requirements).lookup "cms").isSome = true ∧
    ((createPlan [] "p4" "website" [("cms", Value.vNum 1)] 0).result.toOption.map
      (fun plan =>
        decide ("Setup Content Management" ∈ plan.steps.map ExecutionStep.name)))
      = some false := by decide

/-- Claim C4 as amended: for every templated project type and every
requirement map, the kept steps are exactly the required template steps
together with the optional steps whose gating requirement key maps to the
exact boolean `true`. -/
theorem c4_kept_steps_exact (ptype : String) (tmpl : List ExecutionStep)
    (reqs : Requirements) (now : Nat) (htmpl : templates ptype = some tmpl) :
    customizeSteps tmpl reqs now =
      (tmpl.filter (fun s => specKeepsStep s reqs)).map
        (fun s => generateStep s reqs now) := by
  rw [customizeSteps_eq_filter_map]
  congr 1
  apply List.filter_congr
  intro s hs
  apply shouldInclude_eq_spec
  have hall : ∀ x ∈ tmpl,
      x.required = true ∨ x.id = "setup_cms" ∨ x.id = "setup_monitoring" := by
    rcases templates_eq_cases ptype tmpl htmpl with h | h <;> subst h <;> decide
  exact hall s hs

theorem c4_kept_steps_exact_witness :
    customizeSteps websiteTemplate [] 0 =
      (websiteTemplate.filter (fun s => specKeepsStep s [])).map
        (fun s => generateStep s [] 0) :=
  c4_kept_steps_exact "website" websiteTemplate [] 0 rfl

theorem createPlan_ok (ptype : String) (tmpl : List ExecutionStep)
    (reqs : Requirements) (projectId : String) (plans : List ExecutionPlan)
    (now : Nat) (htmpl : templates ptype = some tmpl) :
    createPlan plans projectId ptype reqs now =
      ⟨.ok ⟨"plan_" ++ projectId ++ "_" ++ toString now, projectId, ptype,
          customizeSteps tmpl reqs now, .draft, now, now,
          calculateTotalDuration (customizeSteps tmpl reqs now), reqs⟩,
        plans ++ [⟨"plan_" ++ projectId ++ "_" ++ toString now, projectId, ptype,
          customizeSteps tmpl reqs now, .draft, now, now,
          calculateTotalDuration (customizeSteps tmpl reqs now), reqs⟩]⟩ := by
  unfold createPlan
  rw [htmpl]

theorem plan_duration_eq (tmpl : List ExecutionStep) (reqs : Requirements)
    (now : Nat) :
    calculateTotalDuration (customizeSteps tmpl reqs now) =
      ((tmpl.filter (fun s => shouldIncludeStep s reqs)).map
        (fun s => round ((s.estimatedDuration : ℚ) * complexityMultiplier reqs))).sum := by
  rw [calculateTotalDuration_eq_sum, customizeSteps_eq_filter_map, List.map_map]
  refine congrArg List.sum ?_
  apply List.map_congr_left
  intro a _
  exact adjustDuration_eq_round a reqs

/-- Claim C6: the total estimated duration of every generated plan is the
sum over kept steps of the base duration scaled by the complexity
multiplier (×1.5 for `high`, ×0.8 for `low`, ×1.0 otherwise), each product
rounded to the nearest whole minute; and the same requirement map always
yields the same total. -/
theorem c6_total_duration (ptype : String) (tmpl : List ExecutionStep)
    (reqs : Requirements) (projectId : String) (plans : List ExecutionPlan)
    (now : Nat) (htmpl : templates ptype = some tmpl) :
    ∃ plan plans2,
      createPlan plans projectId ptype reqs now = ⟨.ok plan, plans2⟩ ∧
      plan.estimatedDuration =
        ((tmpl.filter (fun s => shouldIncludeStep s reqs)).map
          (fun s => round ((s.estimatedDuration : ℚ) * complexityMultiplier reqs))).sum ∧
      ∀ projectId2 plans3 now2, ∃ plan2 plans4,
        createPlan plans3 projectId2 ptype reqs now2 = ⟨.ok plan2, plans4⟩ ∧
        plan2.estimatedDuration = plan.estimatedDuration := by
  refine ⟨_, _, createPlan_ok ptype tmpl reqs projectId plans now htmpl,
    plan_duration_eq tmpl reqs now, ?_⟩
  intro projectId2 plans3 now2
  refine ⟨_, _, createPlan_ok ptype tmpl reqs projectId2 plans3 now2 htmpl, ?_⟩
  exact (plan_duration_eq tmpl reqs now2).trans (plan_duration_eq tmpl reqs now).symm

theorem c6_total_duration_witness :
    ∃ plan plans2,
      createPlan [] "p6" "website" [("complexity", Value.vStr "high")] 0 =
        ⟨.ok plan, plans2⟩ ∧
      plan.estimatedDuration =
        ((websiteTemplate.filter
            (fun s => shouldIncludeStep s [("complexity", Value.vStr "high")])).map
          (fun s => round ((s.estimatedDuration : ℚ) *
            complexityMultiplier [("complexity", Value.vStr "high")]))).sum ∧
      ∀ projectId2 plans3 now2, ∃ plan2 plans4,
        createPlan plans3 projectId2 "website" [("complexity", Value.vStr "high")] now2 =
          ⟨.ok plan2, plans4⟩ ∧
        plan2.estimatedDuration = plan.estimatedDuration :=
  c6_total_duration "website" websiteTemplate [("complexity", Value.vStr "high")]
    "p6" [] 0 rfl

/-- Claim C7: for a project type without a template, `createPlan` fails
with the unknown-project-type error and the plan store is unchanged. -/
theorem c7_unknown_project_type (ptype projectId : String) (reqs : Requirements)
    (plans : List ExecutionPlan) (now : Nat) (htmpl : templates ptype = none) :
    createPlan plans projectId ptype reqs now =
      ⟨.error ("No template found for project type: " ++ ptype), plans⟩ := by
  unfold createPlan
  rw [htmpl]

theorem c7_unknown_project_type_witness :
    createPlan [] "p7" "mobile" [] 0 =
      ⟨.error ("No template found for project type: " ++ "mobile"), []⟩ :=
  c7_unknown_project_type "mobile" "p7" [] [] 0 (by decide)

/-- Claim C1 evaluated at a failing input: `c1Plan` holds a required step
on which the executor reports failure (`executeStep` returns `false`), yet
`executeProjectPlan` reports no error, leaves the plan store untouched
(plan still `draft`, step error still absent) and marks the project
`completed` — not `failed` as the claim requires. -/
theorem c1_execute_ignores_executor_failure :
    executeStep c1Step "p1" = false ∧
    c1Step.required = true ∧
    (executeProjectPlan c1State "p1" 7).error = none ∧
    ((findProject (executeProjectPlan c1State "p1" 7).state "p1").map
      Project.status) = some ProjectStatus.completed ∧
    (executeProjectPlan c1State "p1" 7).state.plans = [c1Plan] := by decide

/-- Claim C2 evaluated at the failing input: because the automation
template marks `setup_monitoring` as required, the generated plan contains
the `Setup Monitoring and Alerts` step even when the requirement map sets
`monitoring = false` (and also when it sets it to `true`). -/
theorem c2_monitoring_step_included_regardless :
    ((createPlan [] "p2" "automation" [("monitoring", Value.vBool false)] 3).result.toOption.map
      (fun plan =>
        decide ("Setup Monitoring and Alerts" ∈ plan.steps.map ExecutionStep.name)))
      = some true ∧
    ((createPlan [] "p2" "automation" [("monitoring", Value.vBool true)] 3).result.toOption.map
      (fun plan =>
        decide ("Setup Monitoring and Alerts" ∈ plan.steps.map ExecutionStep.name)))
      = some true := by decide

/-- Claim C3 counterexample: with two stored plans for the same project,
`executeProjectPlan`'s plan lookup resolves the first-stored (oldest)
plan, not the most recently created one. -/
theorem c3_first_plan_counterexample :
    c3PlanOld.createdAt < c3PlanNew.createdAt ∧
    c3PlanOld.projectId = "p3" ∧ c3PlanNew.projectId = "p3" ∧
    resolvePlan c3State "p3" = some c3PlanOld ∧
    c3PlanOld ≠ c3PlanNew := by decide

/-- Claim C3 as amended: `executeProjectPlan` resolves the first-stored
(earliest created) plan whose `projectId` matches; if the project exists
but has no plan, it fails with the plan-not-found error and the state —
in particular the project's status — is unchanged. -/
theorem c3_resolves_first_stored_plan (st : OrchState) (projectId : String)
    (now : Nat) (proj : Project) (hproj : findProject st projectId = some proj) :
    resolvePlan st projectId =
      (st.plans.filter (fun p => p.projectId == projectId)).head? ∧
    (resolvePlan st projectId = none →
      executeProjectPlan st projectId now =
        ⟨st, some ("No plan found for project " ++ projectId)⟩) := by
  constructor
  · exact find?_eq_filter_head _ _
  · intro hplan
    unfold executeProjectPlan
    rw [hproj, hplan]

theorem c3_resolves_first_stored_plan_witness :
    (resolvePlan c3EmptyState "p3" =
      (c3EmptyState.plans.filter (fun p => p.projectId == "p3")).head?) ∧
    (resolvePlan c3EmptyState "p3" = none →
      executeProjectPlan c3EmptyState "p3" 5 =
        ⟨c3EmptyState, some ("No plan found for project " ++ "p3")⟩) :=
  c3_resolves_first_stored_plan c3EmptyState "p3" 5 c3Project (by decide)

/-- Claim C8: with no agents registered and the project present,
`generateExecutionPlan` fails with the error naming the missing planner
agent, and the state (in particular the plan store) is unchanged. -/
theorem c8_planner_unavailable (st : OrchState) (projectId : String)
    (now : Nat) (proj : Project) (hagents : st.agents = [])
    (hproj : findProject st projectId = some proj) :
    generateExecutionPlan st projectId now =
      ⟨st, some "Planner agent not found"⟩ := by
  unfold generateExecutionPlan
  rw [hproj]
  have hpl : lookupAgent st "planner" = none := by
    unfold lookupAgent
    rw [hagents]
    rfl
  rw [hpl]

theorem c8_planner_unavailable_witness :
    generateExecutionPlan c8State "p8" 2 =
      ⟨c8State, some "Planner agent not found"⟩ :=
  c8_planner_unavailable c8State "p8" 2 c8Project rfl (by decide)

/-- Claim C9 counterexample: `stopProject` moves a project that is still
in `planning` to `stopped`, which the claim says never happens. -/
theorem c9_stop_from_planning_counterexample :
    c9Project.status = ProjectStatus.planning ∧
    (stopProject c9State "p9" 1).error = none ∧
    ((findProject (stopProject c9State "p9" 1).state "p9").map Project.status) =
      some ProjectStatus.stopped := by decide

/-- Claim C9 as amended: the orchestrator's status writes are unguarded —
`stopProject` moves any existing project, whatever its current status
(including `planning`, `completed` and `failed`), to `stopped`. -/
theorem c9_stop_unguarded (st : OrchState) (projectId : String) (now : Nat)
    (proj : Project) (hproj : findProject st projectId = some proj) :
    (stopProject st projectId now).error = none ∧
    findProject (stopProject st projectId now).state projectId =
      some { proj with status := .stopped, updatedAt := now } := by
  unfold stopProject
  rw [hproj]
  refine ⟨rfl, ?_⟩
  show findProject (setProjectStatus st projectId .stopped now) projectId = _
  unfold findProject setProjectStatus
  exact find?_update st.projects projectId proj
    (fun p => { p with status := .stopped, updatedAt := now })
    (fun p => rfl) hproj

theorem c9_stop_unguarded_witness :
    (stopProject c9State "p9" 1).error = none ∧
    findProject (stopProject c9State "p9" 1).state "p9" =
      some { c9Project with status := .stopped, updatedAt := 1 } :=
  c9_stop_unguarded c9State "p9" 1 c9Project (by decide)

/-- Claim C10 counterexample: adding a step of duration 0 to a plan whose
`estimatedDuration` equals the sum of its steps' durations leaves that
equality intact, so "after `addStep` the plan's `estimatedDuration` no
longer equals the sum of its steps' durations" does not hold for every
step. -/
theorem c10_zero_step_counterexample :
    c10Plan.estimatedDuration =
      (c10Plan.steps.map ExecutionStep.estimatedDuration).sum ∧
    c10ZeroStep.estimatedDuration = 0 ∧
    ((addStep [c10Plan] "plan_p10_1" c10ZeroStep 5).result.toOption.map
      (fun u =>
        decide (u.estimatedDuration = (u.steps.map ExecutionStep.estimatedDuration).sum)))
      = some true := by decide

/-- Claim C10 as amended: `addStep` appends the step and rewrites
`updatedAt`, leaving every other plan field — in particular
`estimatedDuration` — unchanged; hence whenever the plan's
`estimatedDuration` equaled the sum of its steps' durations and the added
step has nonzero duration, the equality no longer holds afterwards. -/
theorem c10_addStep_frame (plans : List ExecutionPlan) (planId : String)
    (step : ExecutionStep) (now : Nat) (plan : ExecutionPlan)
    (hfind : plans.find? (fun p => p.id == planId) = some plan) :
    ∃ u, (addStep plans planId step now).result = .ok u ∧
      u.steps = plan.steps ++ [step] ∧
      u.estimatedDuration = plan.estimatedDuration ∧
      u.id = plan.id ∧ u.projectId = plan.projectId ∧
      u.projectType = plan.projectType ∧ u.status = plan.status ∧
      u.createdAt = plan.createdAt ∧ u.requirements = plan.requirements ∧
      u.updatedAt = now ∧
      (plan.estimatedDuration = (plan.steps.map ExecutionStep.estimatedDuration).sum →
        step.estimatedDuration ≠ 0 →
        u.estimatedDuration ≠ (u.steps.map ExecutionStep.estimatedDuration).sum) := by
  unfold addStep updatePlan
  rw [hfind]
  refine ⟨_, rfl, rfl, rfl, rfl, rfl, rfl, rfl, rfl, rfl, rfl, ?_⟩
  intro hsum hne
  show plan.estimatedDuration ≠
    ((plan.steps ++ [step]).map ExecutionStep.estimatedDuration).sum
  simp only [List.map_append, List.sum_append, List.map_cons, List.map_nil,
    List.sum_cons, List.sum_nil, add_zero, hsum]
  omega

theorem c10_addStep_frame_witness :
    ∃ u, (addStep [c10Plan] "plan_p10_1" c10Step 9).result = .ok u ∧
      u.steps = c10Plan.steps ++ [c10Step] ∧
      u.estimatedDuration = c10Plan.estimatedDuration ∧
      u.id = c10Plan.id ∧ u.projectId = c10Plan.projectId ∧
      u.projectType = c10Plan.projectType ∧ u.status = c10Plan.status ∧
      u.createdAt = c10Plan.createdAt ∧ u.requirements = c10Plan.requirements ∧
      u.updatedAt = 9 ∧
      (c10Plan.estimatedDuration =
          (c10Plan.steps.map ExecutionStep.estimatedDuration).sum →
        c10Step.estimatedDuration ≠ 0 →
        u.estimatedDuration ≠ (u.steps.map ExecutionStep.estimatedDuration).sum) :=
  c10_addStep_frame [c10Plan] "plan_p10_1" c10Step 9 c10Plan (by decide)

end Spectre
